import Mathlib

/-!
Verification development for the business-simulation backend
(`services/simulation.js`, `services/advancedSimulationHelpers.js`,
`services/advancedSimulation.js`).

Modelling conventions (shallow embedding):
* JS numbers are modelled by exact rationals `ℚ`; IEEE rounding is not
  modelled.  `NaN` is modelled explicitly where it provably arises from the
  source (the `0/0` annuity payment for a zero-rate debt) as `Option ℚ`
  with `none` standing for the non-finite value; the JS comparisons
  `NaN > 0`, `NaN <= 0`, `|NaN| < tol` are all false and are modelled as
  such.  The remote corners in which JS produces an infinity instead of
  `NaN` (annuity base `1 + rate ≤ 0`, i.e. a rate of `-1` or `-2`) are
  conflated with the `none` case; no theorem below touches them (all debt
  theorems carry a `0 < rate` hypothesis and all counterexamples use
  `rate = 0`, where JS produces `NaN` exactly as modelled).
* JS `undefined`/`null` record fields are `Option` fields; `a ?? b` is the
  `Option` fallback, `a || b` is the falsiness fallback (`0` also falls
  through), modelled by `truthyOr` below.
* The Sequelize lookups are external collaborators: the engines receive the
  already-resolved `Option Snapshot` / `Option StrategyParams` (the source
  throws before reaching the algorithm when a supplied id does not
  resolve, so the algorithm only ever runs on resolved records).
* The unseeded `Math.random()` draw of stochastic mode is modelled as an
  explicit stream `rand : ℕ → ℚ` of per-period draws, an input of the
  embedding.
-/

/-- JS `x || d` for an optional numeric field: the field's value when it is
present and truthy (nonzero), otherwise the fallback `d`.  Mirrors
`Number(o.f || d)` in the source. -/
def truthyOr (x : Option ℚ) (d : ℚ) : ℚ :=
  match x with
  | some v => if v = 0 then d else v
  | none => d

/-- JS `x || d` for an optional integer field (used for debt terms). -/
def truthyOrZ (x : Option ℤ) (d : ℤ) : ℤ :=
  match x with
  | some v => if v = 0 then d else v
  | none => d

/-- Addition on possibly-NaN values: NaN propagates through `+`. -/
def optAdd (a b : Option ℚ) : Option ℚ :=
  match a, b with
  | some x, some y => some (x + y)
  | _, _ => none

/-- All-finite check for a cash-flow list: `some` of the plain list when no
entry is NaN, `none` otherwise. -/
def seqOpt : List (Option ℚ) → Option (List ℚ)
  | [] => some []
  | x :: xs =>
    match x, seqOpt xs with
    | some v, some vs => some (v :: vs)
    | _, _ => none

/-! ### KPI calculators (`advancedSimulation.js` lines 62-119) -/

/-- Net present value `Σ_t cashFlows[t] / (1+rate)^t` (the `npv` closure
inside `computeIRR`). -/
def npv (cashFlows : List ℚ) (rate : ℚ) : ℚ :=
  (cashFlows.enum.map (fun p => p.2 / (1 + rate) ^ p.1)).sum

/-- The bisection loop of `computeIRR`: `fuel` remaining iterations; on
exhaustion returns the midpoint of the final bracket.  Mirrors source lines
72-84. -/
def irrLoop (cf : List ℚ) (tol : ℚ) : ℕ → ℚ → ℚ → ℚ → ℚ → ℚ
  | 0, low, high, _, _ => (low + high) / 2
  | fuel + 1, low, high, fLow, fHigh =>
    let mid := (low + high) / 2
    let fMid := npv cf mid
    if |fMid| < tol then mid
    else if fLow * fMid ≤ 0 then irrLoop cf tol fuel low mid fLow fMid
    else irrLoop cf tol fuel mid high fMid fHigh

/-- The default bounds and tolerance of `computeIRR` (source line 62). -/
def irrLow : ℚ := -(9999 / 10000)

def irrHigh : ℚ := 10

def irrTol : ℚ := 1 / 1000000

def irrIterations : ℕ := 80

/-- `computeIRR(cashFlows)` with the source's default bounds: `null` when
`npv(low)` and `npv(high)` have a positive product, otherwise the bisection
result (source lines 62-85). -/
def computeIRR (cashFlows : List ℚ) : Option ℚ :=
  let fLow := npv cashFlows irrLow
  let fHigh := npv cashFlows irrHigh
  if fLow * fHigh > 0 then none
  else some (irrLoop cashFlows irrTol irrIterations irrLow irrHigh fLow fHigh)

/-- The value JS `computeIRR` returns when fed a cash-flow list containing a
NaN entry: every `npv` is NaN, every comparison in the loop is false, so the
loop takes the `low := mid` branch all 80 times against the fixed
`high = 10` and returns the final midpoint
`10 - (10 - irrLow) / 2 ^ 81`. -/
def irrOfNaN : ℚ := 10 - (10 - irrLow) / 2 ^ 81

/-- `computeIRR` as invoked by the engine, on a cash-flow list whose entries
may be NaN (`none`).  With all entries finite it is `computeIRR`; with a NaN
entry it deterministically returns `irrOfNaN` (see there). -/
def computeIRRJS (cashFlows : List (Option ℚ)) : Option ℚ :=
  match seqOpt cashFlows with
  | some flows => computeIRR flows
  | none => some irrOfNaN

/-- `computeROI` (source lines 91-94): `null` exactly when
`initialInvestment` is `0` (the JS guard `!initialInvestment ||
initialInvestment === 0` on a number is truthy only at `0`), otherwise the
quotient — also for negative `initialInvestment`. -/
def computeROI (totalNetProfit initialInvestment : ℚ) : Option ℚ :=
  if initialInvestment = 0 then none
  else some (totalNetProfit / initialInvestment)

/-- `computeBreakEven` (source lines 100-106): `null` for
`initialInvestment ≤ 0`, otherwise the 1-based index of the first cumulative
profit `≥ initialInvestment`, `null` if none. -/
def computeBreakEven (cumulativeProfits : List ℚ) (initialInvestment : ℚ) :
    Option ℕ :=
  if initialInvestment ≤ 0 then none
  else (cumulativeProfits.findIdx? (fun c => initialInvestment ≤ c)).map (· + 1)

/-- Result type of `computeRiskIndex`: the source returns the bare number
`0` for an empty (or missing) profits list and a `{std, mean, riskIndex}`
record otherwise. -/
inductive RiskOut where
  | scalar (value : ℚ)
  | stats (std mean riskIndex : ℚ)
deriving DecidableEq

/-- The `std` field as the engine reads it (`risk.std`): `undefined`
(`none`) when the value is the bare scalar. -/
def RiskOut.stdField : RiskOut → Option ℚ
  | .scalar _ => none
  | .stats s _ _ => some s

/-- The `mean` field as the engine reads it. -/
def RiskOut.meanField : RiskOut → Option ℚ
  | .scalar _ => none
  | .stats _ m _ => some m

/-- The `riskIndex` field as the engine reads it. -/
def RiskOut.riskIndexField : RiskOut → Option ℚ
  | .scalar _ => none
  | .stats _ _ r => some r

/-- `computeRiskIndex` (source lines 111-119): population mean and variance
of the profits; `Math.sqrt` is modelled by `Rat.sqrt` (exact on perfect
squares, which covers every instance a claim evaluates — all have variance
`0`); returns `{std, mean, riskIndex: std}`, or the bare `0` for `[]`. -/
def computeRiskIndex (profits : List ℚ) : RiskOut :=
  if profits.length = 0 then .scalar 0
  else
    let mean := profits.sum / (profits.length : ℚ)
    let variance :=
      (profits.map (fun b => (b - mean) ^ 2)).sum / (profits.length : ℚ)
    let std := Rat.sqrt variance
    .stats std mean std

/-! ### Data model -/

/-- A raw debt object as supplied in `overrides.debts` or the business
snapshot; every field optional, with the alias fields (`amount` for
`principal`, `rate` for `annualRate`, `term` for `periodsToRepay`) the
source's resolution chain reads (source lines 166-172). -/
structure DebtInput where
  principal : Option ℚ
  amount : Option ℚ
  annualRate : Option ℚ
  rate : Option ℚ
  periodsToRepay : Option ℤ
  term : Option ℤ
  startPeriod : Option ℤ
deriving DecidableEq

/-- A one-time investment `{period, amount}` (source lines 221-225). -/
structure OneTimeInvestment where
  period : Option ℤ
  amount : Option ℚ
deriving DecidableEq

/-- The business snapshot as the engine reads it; fields beyond
`revenue`/`cost` may be absent on the stored record. -/
structure Snapshot where
  revenue : ℚ
  cost : ℚ
  initialInvestment : Option ℚ
  cashBalance : Option ℚ
  debts : Option (List DebtInput)
deriving DecidableEq

/-- Strategy parameters. -/
structure StrategyParams where
  growthRate : ℚ
  costRate : ℚ
deriving DecidableEq

/-- The sparse override levers (source lines 135, 147-180). -/
structure Overrides where
  revenue : Option ℚ
  cost : Option ℚ
  initialInvestment : Option ℚ
  cashBalance : Option ℚ
  growthRate : Option ℚ
  costRate : Option ℚ
  growthRateDelta : Option ℚ
  costRateDelta : Option ℚ
  debts : Option (List DebtInput)
  oneTimeInvestments : Option (List OneTimeInvestment)
  marketingPerPeriod : Option ℚ
  priceDeltaPercent : Option ℚ
  marketingMultiplier : Option ℚ
deriving DecidableEq

/-- The all-absent overrides object `{}`. -/
def noOverrides : Overrides :=
  ⟨none, none, none, none, none, none, none, none, none, none, none, none,
    none⟩

/-- A resolved working debt (source lines 166-172): numeric fields resolved
through the `||` chains, `remaining` initialized to the resolved principal.
`remaining = none` models a NaN balance. -/
structure Debt where
  principal : ℚ
  annualRate : ℚ
  periodsToRepay : ℤ
  startPeriod : ℤ
  remaining : Option ℚ
deriving DecidableEq

/-- Resolution of one raw debt object (source lines 166-172). -/
def resolveDebt (d : DebtInput) : Debt :=
  { principal := truthyOr d.principal (truthyOr d.amount 0)
    annualRate := truthyOr d.annualRate (truthyOr d.rate 0)
    periodsToRepay := truthyOrZ d.periodsToRepay (truthyOrZ d.term 0)
    startPeriod := truthyOrZ d.startPeriod 1
    remaining := some (truthyOr d.principal (truthyOr d.amount 0)) }

/-- The `{remaining, principal}` snapshot stored in each period record
(source line 266). -/
structure DebtSnap where
  remaining : Option ℚ
  principal : ℚ
deriving DecidableEq

/-- One period's result record (source lines 256-267).  Fields downstream of
the debt-payment total may be NaN (`none`). -/
structure PeriodRecord where
  period : ℕ
  revenue : ℚ
  cost : ℚ
  profit : ℚ
  investment : ℚ
  debtPayment : Option ℚ
  netCashFlow : Option ℚ
  cashBalance : Option ℚ
  cumulativeProfit : ℚ
  debts : List DebtSnap
deriving DecidableEq

/-- The `meta` block of the result document (source lines 278-285). -/
structure Meta where
  periods : ℕ
  scenario : String
  overrides : Overrides
  initialInvestment : ℚ
  startingRevenue : ℚ
  startingCost : ℚ
deriving DecidableEq

/-- The `kpis` block of the result document (source lines 287-296). -/
structure Kpis where
  totalNetProfit : ℚ
  ROI : Option ℚ
  IRR : Option ℚ
  breakEvenPeriod : Option ℕ
  riskIndex : Option ℚ
  profitStdDev : Option ℚ
  profitMean : Option ℚ
  cashFlows : List (Option ℚ)
deriving DecidableEq

/-- The full result document (source lines 277-297). -/
structure SimulationResult where
  meta : Meta
  results : List PeriodRecord
  kpis : Kpis
deriving DecidableEq

/-- A scenario profile from the fixed registry (source lines 157-162). -/
structure ScenarioProfile where
  growthRateBoost : ℚ
  costVolatility : ℚ
deriving DecidableEq

/-- The scenario registry with `generic` fallback for unknown tags (source
lines 157-163). -/
def scenarioDefaults (scenario : String) : ScenarioProfile :=
  if scenario = "startup" then ⟨5 / 100, 15 / 100⟩
  else if scenario = "manufacturing" then ⟨2 / 100, 8 / 100⟩
  else if scenario = "retail" then ⟨3 / 100, 10 / 100⟩
  else ⟨0, 10 / 100⟩

/-! ### Input resolution (`runAdvancedSimulation`, source lines 146-180) -/

/-- Starting revenue for the period loop (source line 147):
`business ? Number(business.revenue) : Number(overrides.revenue || 1000)`. -/
def resolveStartRevenue (business : Option Snapshot) (o : Overrides) : ℚ :=
  match business with
  | some b => b.revenue
  | none => truthyOr o.revenue 1000

/-- Starting cost for the period loop (source line 148). -/
def resolveStartCost (business : Option Snapshot) (o : Overrides) : ℚ :=
  match business with
  | some b => b.cost
  | none => truthyOr o.cost 500

/-- `Number(overrides.initialInvestment ?? business?.initialInvestment ?? 0)`
(source line 149). -/
def resolveInitialInvestment (business : Option Snapshot) (o : Overrides) :
    ℚ :=
  match o.initialInvestment with
  | some v => v
  | none =>
    match business with
    | some b => b.initialInvestment.getD 0
    | none => 0

/-- `Number(overrides.cashBalance ?? business?.cashBalance ?? 0)` (source
line 150). -/
def resolveCash (business : Option Snapshot) (o : Overrides) : ℚ :=
  match o.cashBalance with
  | some v => v
  | none =>
    match business with
    | some b => b.cashBalance.getD 0
    | none => 0

/-- Growth-rate base (source line 153):
`strategy ? Number(strategy.growthRate) : Number(overrides.growthRate ?? 0.05)`. -/
def resolveGrowthRateBase (strategy : Option StrategyParams) (o : Overrides) :
    ℚ :=
  match strategy with
  | some s => s.growthRate
  | none => o.growthRate.getD (5 / 100)

/-- Cost-rate base (source line 154). -/
def resolveCostRateBase (strategy : Option StrategyParams) (o : Overrides) :
    ℚ :=
  match strategy with
  | some s => s.costRate
  | none => o.costRate.getD (2 / 100)

/-- `(overrides.debts || business?.debts || []).map(resolveDebt)` (source
line 166); note JS `||` treats any array, even `[]`, as truthy. -/
def resolveDebts (business : Option Snapshot) (o : Overrides) : List Debt :=
  (match o.debts with
   | some ds => ds
   | none =>
     match business with
     | some b => b.debts.getD []
     | none => []).map resolveDebt

/-! ### The period loop (source lines 190-268) -/

/-- The loop-invariant parameters of the period loop, resolved once before
it (source lines 153-188). -/
structure LoopParams where
  growthRateBase : ℚ
  costRateBase : ℚ
  growthRateDelta : ℚ
  costRateDelta : ℚ
  growthRateBoost : ℚ
  costVolatility : ℚ
  marketingPerPeriod : ℚ
  priceDeltaPercent : ℚ
  marketingMultiplier : ℚ
  oneTimeInvestments : List OneTimeInvestment
  stochastic : Bool
  rand : ℕ → ℚ

/-- The mutable working state of the period loop. -/
structure SimState where
  revenue : ℚ
  cost : ℚ
  cash : Option ℚ
  cumulativeProfit : ℚ
  debts : List Debt
  cashFlows : List (Option ℚ)
  results : List PeriodRecord

/-- One debt's service step in period `t` (source lines 231-243): returns
the updated debt and its payment contribution (`some 0` when unserviced).
A zero-rate serviced debt hits the `0/0` annuity payment: NaN (`none`)
propagates into both the payment and `remaining`, exactly as in JS (where
`Math.min(NaN, x) = NaN` and `Math.max(0, NaN) = NaN`); a NaN `remaining`
fails the `> 0` guard in every later period. -/
def debtStep (t : ℕ) (d : Debt) : Debt × Option ℚ :=
  match d.remaining with
  | none => (d, some 0)
  | some r =>
    if d.startPeriod ≤ (t : ℤ) ∧ 0 < r then
      if d.periodsToRepay ≤ 0 then (d, some 0)
      else
        let rate := d.annualRate
        let denom := 1 - ((1 + rate) ^ d.periodsToRepay.toNat)⁻¹
        if denom = 0 then
          ({ d with remaining := none }, none)
        else
          let payment := d.principal * rate / denom
          let paymentAmount := min payment (r + r * rate)
          ({ d with remaining := some (max 0 (r - (paymentAmount - r * rate))) },
            some paymentAmount)
    else (d, some 0)

/-- The debt loop of one period (source lines 230-244): updates every debt
in order and accumulates the total payment (NaN-absorbing). -/
def debtsStep (t : ℕ) : List Debt → List Debt × Option ℚ
  | [] => ([], some 0)
  | d :: ds =>
    let p := debtStep t d
    let rest := debtsStep t ds
    (p.1 :: rest.1, optAdd p.2 rest.2)

/-- Total of the one-time investments scheduled for exactly period `t`
(source lines 220-225). -/
def investmentAt (invs : List OneTimeInvestment) (t : ℕ) : ℚ :=
  (invs.map (fun inv =>
    match inv.period with
    | some p => if p = (t : ℤ) then truthyOr inv.amount 0 else 0
    | none => 0)).sum

/-- One iteration of the period loop for period `t` (source lines
190-268), in the source's exact operation order. -/
def simStep (P : LoopParams) (t : ℕ) (s : SimState) : SimState :=
  let growthRate := P.growthRateBase + P.growthRateDelta + P.growthRateBoost
  let costRate := P.costRateBase + P.costRateDelta
  let revenue1 := s.revenue * (1 + growthRate)
  let revenue2 := revenue1 * (1 + P.priceDeltaPercent)
  let revenue3 :=
    if 0 < P.marketingPerPeriod then
      revenue2 + P.marketingPerPeriod * P.marketingMultiplier
    else revenue2
  let revenue4 :=
    if P.stochastic then
      max 0 (revenue3 + (P.rand t * 2 - 1) * P.costVolatility * revenue3)
    else revenue3
  let cost1 := s.cost * (1 + costRate) + P.marketingPerPeriod
  let investmentThisPeriod := investmentAt P.oneTimeInvestments t
  let profit := revenue4 - cost1
  let debtsOut := debtsStep t s.debts
  let netThisPeriod :=
    debtsOut.2.map (fun dp => profit - investmentThisPeriod - dp)
  let cash2 := optAdd s.cash netThisPeriod
  let cum2 := s.cumulativeProfit + profit
  { revenue := revenue4
    cost := cost1
    cash := cash2
    cumulativeProfit := cum2
    debts := debtsOut.1
    cashFlows := s.cashFlows ++ [netThisPeriod]
    results := s.results ++
      [{ period := t
         revenue := revenue4
         cost := cost1
         profit := profit
         investment := investmentThisPeriod
         debtPayment := debtsOut.2
         netCashFlow := netThisPeriod
         cashBalance := cash2
         cumulativeProfit := cum2
         debts := debtsOut.1.map (fun d => ⟨d.remaining, d.principal⟩) }] }

/-- Runs the period loop from period `t` for `k` more periods. -/
def runFrom (P : LoopParams) (t : ℕ) (s : SimState) : ℕ → SimState
  | 0 => s
  | k + 1 => runFrom P (t + 1) (simStep P t s) k

/-- The loop parameters as resolved by `runAdvancedSimulation` (source
lines 153-192): the registry profiles are all truthy, so the source's
`sDefaults.growthRateBoost || 0` and `sDefaults.costVolatility || 0.1`
reduce to the profile fields themselves. -/
def mkLoopParams (strategy : Option StrategyParams) (o : Overrides)
    (scenario : String) (stochastic : Bool) (rand : ℕ → ℚ) : LoopParams :=
  { growthRateBase := resolveGrowthRateBase strategy o
    costRateBase := resolveCostRateBase strategy o
    growthRateDelta := o.growthRateDelta.getD 0
    costRateDelta := o.costRateDelta.getD 0
    growthRateBoost := (scenarioDefaults scenario).growthRateBoost
    costVolatility := (scenarioDefaults scenario).costVolatility
    marketingPerPeriod := truthyOr o.marketingPerPeriod 0
    priceDeltaPercent := truthyOr o.priceDeltaPercent 0
    marketingMultiplier := o.marketingMultiplier.getD 2
    oneTimeInvestments := o.oneTimeInvestments.getD []
    stochastic := stochastic
    rand := rand }

/-- The working state entering period 1 (source lines 147-188): `cashFlows`
seeded with `-initialInvestment`. -/
def initState (business : Option Snapshot) (o : Overrides) : SimState :=
  { revenue := resolveStartRevenue business o
    cost := resolveStartCost business o
    cash := some (resolveCash business o)
    cumulativeProfit := 0
    debts := resolveDebts business o
    cashFlows := [some (-(resolveInitialInvestment business o))]
    results := [] }

/-- `runAdvancedSimulation` (source lines 131-298) on already-resolved
lookups: runs the period loop and assembles the result document.  The
engine reads `risk.std` / `risk.mean` / `risk.riskIndex` off the
`computeRiskIndex` result, which for an empty profits list is the bare
number `0`, making those three KPI fields `undefined` (`none`). -/
def runAdvancedSimulation (business : Option Snapshot)
    (strategy : Option StrategyParams) (periods : ℕ) (o : Overrides)
    (scenario : String) (stochastic : Bool) (rand : ℕ → ℚ) :
    SimulationResult :=
  let initialInvestment := resolveInitialInvestment business o
  let P := mkLoopParams strategy o scenario stochastic rand
  let sF := runFrom P 1 (initState business o) periods
  let profits := sF.results.map (·.profit)
  let totalNetProfit := profits.sum
  let risk := computeRiskIndex profits
  { meta :=
      { periods := periods
        scenario := scenario
        overrides := o
        initialInvestment := initialInvestment
        startingRevenue :=
          match business with
          | some b => b.revenue
          | none =>
            match o.revenue with
            | some v => v
            | none => sF.revenue
        startingCost :=
          match business with
          | some b => b.cost
          | none =>
            match o.cost with
            | some v => v
            | none => sF.cost }
    results := sF.results
    kpis :=
      { totalNetProfit := totalNetProfit
        ROI := computeROI totalNetProfit initialInvestment
        IRR := computeIRRJS sF.cashFlows
        breakEvenPeriod :=
          computeBreakEven (sF.results.map (·.cumulativeProfit))
            initialInvestment
        riskIndex := risk.riskIndexField
        profitStdDev := risk.stdField
        profitMean := risk.meanField
        cashFlows := sF.cashFlows } }

/-! ### The simple engine (`simulation.js` lines 11-23) -/

/-- One record of the simple engine. -/
structure SimpleRecord where
  period : ℕ
  revenue : ℚ
  cost : ℚ
  profit : ℚ
deriving DecidableEq

/-- The simple engine's loop from period `t`. -/
def simpleFrom (growthRate costRate : ℚ) (t : ℕ) (revenue cost : ℚ) :
    ℕ → List SimpleRecord
  | 0 => []
  | k + 1 =>
    let revenue2 := revenue * (1 + growthRate)
    let cost2 := cost * (1 + costRate)
    { period := t, revenue := revenue2, cost := cost2,
      profit := revenue2 - cost2 } ::
      simpleFrom growthRate costRate (t + 1) revenue2 cost2 k

/-- `runSimulation` (source lines 5-24) on already-resolved lookups. -/
def runSimulation (business : Snapshot) (strategy : StrategyParams)
    (periods : ℕ) : List SimpleRecord :=
  simpleFrom strategy.growthRate strategy.costRate 1 business.revenue
    business.cost periods

/-! ### Concrete inputs used by counterexamples and witnesses -/

/-- Zero-draw random stream (unused by all non-stochastic runs below). -/
def randZero : ℕ → ℚ := fun _ => 0

/-- A snapshot with revenue 777 and cost 300. -/
def bC1 : Snapshot := ⟨777, 300, none, none, none⟩

/-- Overrides carrying `revenue: 5` and `growthRate: 0`. -/
def oC1 : Overrides := { noOverrides with revenue := some 5, growthRate := some 0 }

/-- Overrides carrying `revenue: 0` and `growthRate: 0`. -/
def oC1z : Overrides :=
  { noOverrides with revenue := some 0, growthRate := some 0 }

/-- Overrides carrying a single zero-rate debt
`{principal: 100, periodsToRepay: 4, startPeriod: 1}`. -/
def oC4 : Overrides :=
  { noOverrides with debts := some [⟨some 100, none, none, none, some 4, none, some 1⟩] }

/-- Overrides carrying a single negative-principal debt
`{principal: -5, annualRate: 0.1, periodsToRepay: 4, startPeriod: 1}`. -/
def oC4n : Overrides :=
  { noOverrides with
      debts := some [⟨some (-5), none, some (1 / 10), none, some 4, none, some 1⟩] }

/-- Overrides carrying a single benign debt
`{principal: 1000, annualRate: 0.08, periodsToRepay: 4, startPeriod: 1}`. -/
def oC4w : Overrides :=
  { noOverrides with
      debts := some [⟨some 1000, none, some (2 / 25), none, some 4, none, some 1⟩] }

/-- Overrides carrying `revenue: 7` only. -/
def oRev7 : Overrides := { noOverrides with revenue := some 7 }

/-- Overrides carrying `cost: 0` only. -/
def oCost0 : Overrides := { noOverrides with cost := some 0 }

/-- The spec's simple-engine example snapshot `{revenue: 1000, cost: 500}`. -/
def bSpec : Snapshot := ⟨1000, 500, none, none, none⟩

/-- The spec's example strategy `{growthRate: 0.1, costRate: 0.05}`. -/
def sSpec : StrategyParams := ⟨1 / 10, 1 / 20⟩

/-! ### Claim C2 -/

/-- Claim C2 counterexample: `computeROI(1000, -500)` returns the number
`-2`, not `null` — a negative `initialInvestment` passes the source's
`!initialInvestment || initialInvestment === 0` guard, so the claim that
zero *or negative* investments yield `null` is false for `computeROI`. -/
theorem claim_C2_counterexample : computeROI 1000 (-500) = some (-2) := by
  norm_num [computeROI]

/-- Claim C2 (amended): `computeROI` returns `null` exactly when
`initialInvestment` is zero (for any nonzero — including negative —
investment it returns the quotient `totalNetProfit / initialInvestment`),
and `computeBreakEven` returns `null` whenever `initialInvestment` is zero
or negative; both encode the degenerate input as `null` rather than a
raised error. -/
theorem claim_C2_amended (t I : ℚ) (cps : List ℚ) :
    (computeROI t I = none ↔ I = 0) ∧
    (I ≠ 0 → computeROI t I = some (t / I)) ∧
    (I ≤ 0 → computeBreakEven cps I = none) := by
  refine ⟨?_, fun h => ?_, fun h => ?_⟩
  · unfold computeROI
    split_ifs with h <;> simp [h]
  · unfold computeROI
    rw [if_neg h]
  · unfold computeBreakEven
    rw [if_pos h]

/-- Witness for claim C2 at concrete inputs. -/
theorem claim_C2_witness :
    computeROI 7 0 = none ∧ computeROI 1000 500 = some 2 ∧
      computeBreakEven [100, 200] (-5) = none := by
  refine ⟨(claim_C2_amended 7 0 []).1.mpr rfl, ?_,
    (claim_C2_amended 0 (-5) [100, 200]).2.2 (by norm_num)⟩
  rw [(claim_C2_amended 1000 500 []).2.1 (by norm_num)]
  norm_num

/-! ### Claim C3 -/

/-- Claim C3 counterexample: on the empty list the source returns the bare
number `0` (`if (!profits || profits.length === 0) return 0;`), not the
record `{std: 0, mean: 0, riskIndex: 0}` the claim asserts. -/
theorem claim_C3_counterexample :
    computeRiskIndex [] = RiskOut.scalar 0 ∧
      computeRiskIndex [] ≠ RiskOut.stats 0 0 0 := by
  constructor <;> decide

/-- Claim C3 (amended): for every *nonempty* profits list,
`computeRiskIndex` returns a `{std, mean, riskIndex}` record with
`riskIndex = std`, `mean` the arithmetic mean and `std` the square root of
the population variance; `computeRiskIndex([10,10,10]) ==
{std: 0, mean: 10, riskIndex: 0}`; the empty list instead yields the bare
scalar `0`. -/
theorem claim_C3_amended (profits : List ℚ) (h : profits ≠ []) :
    (∃ std mean, computeRiskIndex profits = RiskOut.stats std mean std ∧
        mean = profits.sum / (profits.length : ℚ) ∧
        std = Rat.sqrt
          ((profits.map (fun b => (b - mean) ^ 2)).sum /
            (profits.length : ℚ))) ∧
      computeRiskIndex [10, 10, 10] = RiskOut.stats 0 10 0 := by
  constructor
  · unfold computeRiskIndex
    rw [if_neg (by simpa using h)]
    exact ⟨_, _, rfl, rfl, rfl⟩
  · have h0 : Rat.sqrt 0 = 0 := rfl
    simp only [computeRiskIndex]
    norm_num [h0]

/-- Witness for claim C3 at the concrete list `[10, 10, 10]`. -/
theorem claim_C3_witness : computeRiskIndex [10, 10, 10] = RiskOut.stats 0 10 0 :=
  (claim_C3_amended [10, 10, 10] (by decide)).2

/-! ### Claim C6 -/

/-- Claim C6 (confirmed): with its default bounds, `computeIRR` returns
`null` exactly when `NPV(low) * NPV(high) > 0`; whenever the product is
`≤ 0` it returns a number — the bisection result, which by construction is
either the first midpoint with `|NPV(mid)| < tol` or, after the 80
iterations, the midpoint of the final bracket (`irrLoop` returns a plain
rational, never `null`). -/
theorem claim_C6 (cashFlows : List ℚ) :
    (computeIRR cashFlows = none ↔
        npv cashFlows irrLow * npv cashFlows irrHigh > 0) ∧
      (npv cashFlows irrLow * npv cashFlows irrHigh ≤ 0 →
        computeIRR cashFlows =
          some (irrLoop cashFlows irrTol irrIterations irrLow irrHigh
            (npv cashFlows irrLow) (npv cashFlows irrHigh))) := by
  constructor
  · simp only [computeIRR]
    split_ifs with h <;> simp [h]
  · intro h
    simp only [computeIRR]
    rw [if_neg (not_lt.mpr h)]

/-- Witness for claim C6 on the spec's example cash flows `[-100, 110]`
(whose NPVs at the two bounds have opposite signs). -/
theorem claim_C6_witness :
    computeIRR [-100, 110] =
      some (irrLoop [-100, 110] irrTol irrIterations irrLow irrHigh
        (npv [-100, 110] irrLow) (npv [-100, 110] irrHigh)) :=
  (claim_C6 [-100, 110]).2 (by norm_num [npv, irrLow, irrHigh, List.enum, List.enumFrom])

/-! ### Shape lemmas for the period loop -/

/-- Each loop iteration appends exactly one result record. -/
theorem runFrom_results_length (P : LoopParams) :
    ∀ (k t : ℕ) (s : SimState),
      (runFrom P t s k).results.length = s.results.length + k
  | 0, _, _ => by simp [runFrom]
  | k + 1, t, s => by
    rw [runFrom, runFrom_results_length P k]
    simp [simStep]
    omega

/-- The period fields of the generated records are consecutive, starting at
the loop's first period. -/
theorem runFrom_period_map (P : LoopParams) :
    ∀ (k t : ℕ) (s : SimState),
      (runFrom P t s k).results.map (·.period) =
        s.results.map (·.period) ++ List.range' t k
  | 0, _, _ => by simp [runFrom]
  | k + 1, t, s => by
    rw [runFrom, runFrom_period_map P k, List.range'_succ]
    simp [simStep]

/-- Each loop iteration appends exactly one cash-flow entry. -/
theorem runFrom_cashFlows_length (P : LoopParams) :
    ∀ (k t : ℕ) (s : SimState),
      (runFrom P t s k).cashFlows.length = s.cashFlows.length + k
  | 0, _, _ => by simp [runFrom]
  | k + 1, t, s => by
    rw [runFrom, runFrom_cashFlows_length P k]
    simp [simStep]
    omega

/-- One loop iteration appends exactly one entry to the cash-flow list. -/
theorem simStep_cashFlows_concat (P : LoopParams) (t : ℕ) (s : SimState) :
    ∃ y, (simStep P t s).cashFlows = s.cashFlows ++ [y] := ⟨_, rfl⟩

/-- The loop only ever appends to the cash-flow list, so its seeded first
entry survives. -/
theorem runFrom_cashFlows_cons (P : LoopParams) :
    ∀ (k t : ℕ) (s : SimState) (x : Option ℚ),
      (∃ rest, s.cashFlows = x :: rest) →
      ∃ rest2, (runFrom P t s k).cashFlows = x :: rest2
  | 0, _, _, _, h => by simpa [runFrom] using h
  | k + 1, t, s, x, h => by
    obtain ⟨rest, hr⟩ := h
    obtain ⟨y, hy⟩ := simStep_cashFlows_concat P t s
    rw [runFrom]
    exact runFrom_cashFlows_cons P k (t + 1) (simStep P t s) x
      ⟨rest ++ [y], by rw [hy, hr]; simp⟩

/-! ### Claim C9 -/

/-- Claim C9 (confirmed): for every run, `results` has length `periods`,
`results[p].period = p + 1` for every index `p` (the period fields are
exactly `[1, …, periods]`), `kpis.cashFlows` has length `periods + 1`, and
its first entry is `-initialInvestment`. -/
theorem claim_C9 (business : Option Snapshot) (strategy : Option StrategyParams)
    (periods : ℕ) (o : Overrides) (scenario : String) (stochastic : Bool)
    (rand : ℕ → ℚ) :
    (runAdvancedSimulation business strategy periods o scenario stochastic
        rand).results.length = periods ∧
    (runAdvancedSimulation business strategy periods o scenario stochastic
        rand).results.map (·.period) = List.range' 1 periods ∧
    (runAdvancedSimulation business strategy periods o scenario stochastic
        rand).kpis.cashFlows.length = periods + 1 ∧
    (runAdvancedSimulation business strategy periods o scenario stochastic
        rand).kpis.cashFlows.head? =
      some (some (-(runAdvancedSimulation business strategy periods o scenario
        stochastic rand).meta.initialInvestment)) := by
  obtain ⟨rest2, hcons⟩ :=
    runFrom_cashFlows_cons (mkLoopParams strategy o scenario stochastic rand)
      periods 1 (initState business o)
      (some (-(resolveInitialInvestment business o))) ⟨[], by simp [initState]⟩
  refine ⟨?_, ?_, ?_, ?_⟩
  · show (runFrom (mkLoopParams strategy o scenario stochastic rand) 1
      (initState business o) periods).results.length = periods
    rw [runFrom_results_length]
    simp [initState]
  · show (runFrom (mkLoopParams strategy o scenario stochastic rand) 1
      (initState business o) periods).results.map (·.period) =
        List.range' 1 periods
    rw [runFrom_period_map]
    simp [initState]
  · show (runFrom (mkLoopParams strategy o scenario stochastic rand) 1
      (initState business o) periods).cashFlows.length = periods + 1
    rw [runFrom_cashFlows_length]
    simp [initState]
    omega
  · show (runFrom (mkLoopParams strategy o scenario stochastic rand) 1
      (initState business o) periods).cashFlows.head? =
      some (some (-(resolveInitialInvestment business o)))
    rw [hcons]
    rfl

/-! ### Claim C8 -/

/-- Running prefix sums: `runningSums acc [x₁, x₂, …]` is
`[acc + x₁, acc + x₁ + x₂, …]`. -/
def runningSums (acc : ℚ) : List ℚ → List ℚ
  | [] => []
  | x :: xs => (acc + x) :: runningSums (acc + x) xs

/-- Appending one element to a prefix-sum list. -/
theorem runningSums_concat (acc : ℚ) (l : List ℚ) (x : ℚ) :
    runningSums acc (l ++ [x]) = runningSums acc l ++ [acc + l.sum + x] := by
  induction l generalizing acc with
  | nil => simp [runningSums]
  | cons y ys ih =>
    simp only [List.cons_append, runningSums, List.append_eq, ih, List.sum_cons]
    simp [add_assoc]

/-- The `i`-th running sum is the sum of the first `i + 1` entries. -/
theorem runningSums_getElem (acc : ℚ) (l : List ℚ) :
    ∀ (i : ℕ), (runningSums acc l)[i]? =
      if i < l.length then some (acc + (l.take (i + 1)).sum) else none := by
  induction l generalizing acc with
  | nil => intro i; simp [runningSums]
  | cons y ys ih =>
    intro i
    match i with
    | 0 => simp [runningSums]
    | i + 1 =>
      simp only [runningSums, List.getElem?_cons_succ, ih, List.length_cons,
        List.take_succ_cons, List.sum_cons]
      split_ifs with h h2 h2 <;> try omega
      · rw [add_assoc]
      · rfl

/-- Loop invariant for claim C8: the running `cumulativeProfit` equals the
sum of the generated profits, and the stored `cumulativeProfit` fields are
the prefix sums of the stored `profit` fields. -/
theorem runFrom_cum (P : LoopParams) :
    ∀ (k t : ℕ) (s : SimState),
      s.cumulativeProfit = (s.results.map (·.profit)).sum →
      s.results.map (·.cumulativeProfit) =
        runningSums 0 (s.results.map (·.profit)) →
      (runFrom P t s k).cumulativeProfit =
          ((runFrom P t s k).results.map (·.profit)).sum ∧
        (runFrom P t s k).results.map (·.cumulativeProfit) =
          runningSums 0 ((runFrom P t s k).results.map (·.profit))
  | 0, _, s, h1, h2 => by simpa [runFrom] using ⟨h1, h2⟩
  | k + 1, t, s, h1, h2 => by
    rw [runFrom]
    apply runFrom_cum P k
    · simp [simStep, h1]
    · simp only [simStep]
      simp only [List.map_append, List.map_cons, List.map_nil]
      rw [runningSums_concat, h2, h1]
      simp

/-- Claim C8 (confirmed): in every run, the stored `cumulativeProfit`
fields are exactly the running prefix sums of the stored `profit` fields
(so the record at period `t` carries the sum of `profit` over periods
`1..t`), and `kpis.totalNetProfit` is the sum of `profit` (revenue minus
cost, before investments and debt payments) over all periods — not the sum
of `netCashFlow`. -/
theorem claim_C8 (business : Option Snapshot) (strategy : Option StrategyParams)
    (periods : ℕ) (o : Overrides) (scenario : String) (stochastic : Bool)
    (rand : ℕ → ℚ) :
    (runAdvancedSimulation business strategy periods o scenario stochastic
        rand).results.map (·.cumulativeProfit) =
      runningSums 0 ((runAdvancedSimulation business strategy periods o
        scenario stochastic rand).results.map (·.profit)) ∧
    (runAdvancedSimulation business strategy periods o scenario stochastic
        rand).kpis.totalNetProfit =
      ((runAdvancedSimulation business strategy periods o scenario stochastic
        rand).results.map (·.profit)).sum := by
  have h := runFrom_cum (mkLoopParams strategy o scenario stochastic rand)
    periods 1 (initState business o) (by simp [initState]) (by simp [initState, runningSums])
  exact ⟨h.2, rfl⟩

/-! ### Claim C7 -/

/-- With stochastic mode off, one loop iteration never consults the random
stream. -/
theorem simStep_rand (P : LoopParams) (r : ℕ → ℚ) (h : P.stochastic = false)
    (t : ℕ) (s : SimState) :
    simStep { P with rand := r } t s = simStep P t s := by
  simp [simStep, h]

/-- With stochastic mode off, the whole loop never consults the random
stream. -/
theorem runFrom_rand (P : LoopParams) (r : ℕ → ℚ) (h : P.stochastic = false) :
    ∀ (k t : ℕ) (s : SimState),
      runFrom { P with rand := r } t s k = runFrom P t s k
  | 0, _, _ => by simp [runFrom]
  | k + 1, t, s => by
    rw [runFrom, runFrom, simStep_rand P r h, runFrom_rand P r h k]

/-- Claim C7 (confirmed): `runAdvancedSimulation` with `stochastic = false`
is deterministic — two calls with identical resolved inputs produce
identical `SimulationResult` documents in every field, whatever values the
(unconsulted) random streams would have drawn. -/
theorem claim_C7 (business : Option Snapshot) (strategy : Option StrategyParams)
    (periods : ℕ) (o : Overrides) (scenario : String) (r1 r2 : ℕ → ℚ) :
    runAdvancedSimulation business strategy periods o scenario false r1 =
      runAdvancedSimulation business strategy periods o scenario false r2 := by
  have hmk : mkLoopParams strategy o scenario false r1 =
      { mkLoopParams strategy o scenario false r2 with rand := r1 } := rfl
  have h := runFrom_rand (mkLoopParams strategy o scenario false r2) r1 rfl
    periods 1 (initState business o)
  simp only [runAdvancedSimulation, hmk, h]

/-! ### Claim C5 -/

/-- With every advanced lever neutral (no deltas, no scenario boost, no
marketing, no price delta, no investments, no noise) and no debts, the
advanced loop generates exactly the simple engine's
revenue/cost/profit trajectory. -/
theorem runFrom_simple (P : LoopParams) (h1 : P.growthRateDelta = 0)
    (h2 : P.costRateDelta = 0) (h3 : P.growthRateBoost = 0)
    (h4 : P.marketingPerPeriod = 0) (h5 : P.priceDeltaPercent = 0)
    (h6 : P.oneTimeInvestments = []) (h7 : P.stochastic = false) :
    ∀ (k t : ℕ) (s : SimState), s.debts = [] →
      (runFrom P t s k).results.map (fun r => (r.revenue, r.cost, r.profit)) =
        s.results.map (fun r => (r.revenue, r.cost, r.profit)) ++
          (simpleFrom P.growthRateBase P.costRateBase t s.revenue s.cost
            k).map (fun r => (r.revenue, r.cost, r.profit))
  | 0, _, _, _ => by simp [runFrom, simpleFrom]
  | k + 1, t, s, hdebts => by
    rw [runFrom]
    have hd : (simStep P t s).debts = [] := by simp [simStep, hdebts, debtsStep]
    rw [runFrom_simple P h1 h2 h3 h4 h5 h6 h7 k (t + 1) (simStep P t s) hd]
    simp only [simStep, simpleFrom, h1, h2, h3, h4, h5, h7]
    simp [List.map_append]

/-- Claim C5 (confirmed): with `stochastic = false`, scenario `"generic"`,
no debts resolved, and no one-time-investment, marketing, price-delta or
rate-delta overrides, `runAdvancedSimulation` on a resolved business and
strategy produces exactly the per-period revenue, cost and profit sequence
of `runSimulation` on the same snapshot, strategy and period count. -/
theorem claim_C5 (b : Snapshot) (strategy : StrategyParams) (periods : ℕ)
    (o : Overrides) (rand : ℕ → ℚ)
    (hdebts : resolveDebts (some b) o = [])
    (hg : o.growthRateDelta = none) (hc : o.costRateDelta = none)
    (hm : o.marketingPerPeriod = none) (hp : o.priceDeltaPercent = none)
    (hi : o.oneTimeInvestments = none) :
    (runAdvancedSimulation (some b) (some strategy) periods o "generic" false
        rand).results.map (fun r => (r.revenue, r.cost, r.profit)) =
      (runSimulation b strategy periods).map
        (fun r => (r.revenue, r.cost, r.profit)) := by
  have h := runFrom_simple (mkLoopParams (some strategy) o "generic" false rand)
    (by simp [mkLoopParams, hg]) (by simp [mkLoopParams, hc]) rfl
    (by simp [mkLoopParams, hm, truthyOr]) (by simp [mkLoopParams, hp, truthyOr])
    (by simp [mkLoopParams, hi]) rfl periods 1 (initState (some b) o)
    (by simp [initState, hdebts])
  simpa [runAdvancedSimulation, initState, resolveStartRevenue,
    resolveStartCost, mkLoopParams, resolveGrowthRateBase, resolveCostRateBase,
    runSimulation] using h

/-- Witness for claim C5 on the spec's example scenario, including the
spec's expected numeric trajectory. -/
theorem claim_C5_witness :
    ((runAdvancedSimulation (some bSpec) (some sSpec) 2 noOverrides "generic"
        false randZero).results.map (fun r => (r.revenue, r.cost, r.profit)) =
      (runSimulation bSpec sSpec 2).map
        (fun r => (r.revenue, r.cost, r.profit))) ∧
    (runSimulation bSpec sSpec 2).map (fun r => (r.revenue, r.cost, r.profit)) =
      [(1100, 525, 575), (1210, 2205 / 4, 2635 / 4)] := by
  constructor
  · exact claim_C5 bSpec sSpec 2 noOverrides randZero rfl rfl rfl rfl rfl rfl
  · norm_num [runSimulation, simpleFrom, bSpec, sSpec]

/-! ### Claim C10 -/

/-- After at least one period, the last generated record carries exactly
the loop's final working revenue and cost. -/
theorem runFrom_last (P : LoopParams) :
    ∀ (k t : ℕ) (s : SimState),
      (runFrom P t s (k + 1)).results.getLast?.map
          (fun r => (r.revenue, r.cost)) =
        some ((runFrom P t s (k + 1)).revenue, (runFrom P t s (k + 1)).cost)
  | 0, t, s => by
    rw [runFrom, runFrom]
    simp [simStep, List.getLast?_concat]
  | k + 1, t, s => by
    rw [runFrom]
    exact runFrom_last P k (t + 1) (simStep P t s)

/-- Claim C10 (confirmed): with `businessId = null` and `overrides.revenue`
(resp. `overrides.cost`) absent, `meta.startingRevenue` (resp.
`meta.startingCost`) is read off the working `revenue`/`cost` variables
*after* the loop, so for a run of at least one period it equals the final
period's revenue/cost, not the default starting value the loop began
from. -/
theorem claim_C10 (strategy : Option StrategyParams) (k : ℕ) (o : Overrides)
    (scenario : String) (stochastic : Bool) (rand : ℕ → ℚ)
    (hr : o.revenue = none) (hc : o.cost = none) :
    (runAdvancedSimulation none strategy (k + 1) o scenario stochastic
        rand).results.getLast?.map (fun r => (r.revenue, r.cost)) =
      some ((runAdvancedSimulation none strategy (k + 1) o scenario stochastic
          rand).meta.startingRevenue,
        (runAdvancedSimulation none strategy (k + 1) o scenario stochastic
          rand).meta.startingCost) := by
  have h := runFrom_last (mkLoopParams strategy o scenario stochastic rand) k 1
    (initState none o)
  simpa [runAdvancedSimulation, hr, hc] using h

/-- Witness for claim C10: a default one-period run starts the loop at the
default revenue 1000 but reports `startingRevenue = 1050`, the revenue
after the simulated period. -/
theorem claim_C10_witness :
    ((runAdvancedSimulation none none 1 noOverrides "generic" false
        randZero).results.getLast?.map (fun r => (r.revenue, r.cost)) =
      some ((runAdvancedSimulation none none 1 noOverrides "generic" false
          randZero).meta.startingRevenue,
        (runAdvancedSimulation none none 1 noOverrides "generic" false
          randZero).meta.startingCost)) ∧
    (runAdvancedSimulation none none 1 noOverrides "generic" false
        randZero).meta.startingRevenue = 1050 ∧
    (1050 : ℚ) ≠ 1000 := by
  refine ⟨claim_C10 none 0 noOverrides "generic" false randZero rfl rfl, ?_,
    by norm_num⟩
  have hgen : scenarioDefaults "generic" = ⟨0, 10 / 100⟩ := rfl
  norm_num [hgen, runAdvancedSimulation, mkLoopParams, initState, runFrom, simStep,
    resolveGrowthRateBase, resolveCostRateBase, resolveStartRevenue,
    resolveStartCost, resolveDebts, resolveInitialInvestment, resolveCash,
    noOverrides, truthyOr, debtsStep, investmentAt]

/-! ### Claim C4 -/

/-- The debt loop updates the debts element-wise. -/
theorem debtsStep_fst (t : ℕ) :
    ∀ ds : List Debt, (debtsStep t ds).1 = ds.map (fun d => (debtStep t d).1)
  | [] => rfl
  | d :: ds => by simp [debtsStep, debtsStep_fst t ds]

/-- One service step of a debt with nonnegative principal and strictly
positive rate: the balance stays a number, stays nonnegative, and does not
increase (the clamped payment always covers at least the accrued
interest). -/
theorem debtStep_remaining (t : ℕ) (pr rate : ℚ) (n start : ℤ) (r : ℚ)
    (hpr : 0 ≤ pr) (hrate : 0 < rate) (h0 : 0 ≤ r) (hrp : r ≤ pr) :
    ∃ q, (debtStep t ⟨pr, rate, n, start, some r⟩).1 =
        ⟨pr, rate, n, start, some q⟩ ∧ 0 ≤ q ∧ q ≤ r := by
  simp only [debtStep]
  split_ifs with hguard hn hdenom
  · exact ⟨r, rfl, h0, le_rfl⟩
  · -- the annuity denominator cannot vanish for a positive rate
    exfalso
    have hx : (1 : ℚ) < 1 + rate := by linarith
    have hm : (n.toNat : ℕ) ≠ 0 := by
      simp only [not_le] at hn
      omega
    have hpow : (1 : ℚ) < (1 + rate) ^ n.toNat := one_lt_pow₀ hx hm
    have hinv : ((1 + rate) ^ n.toNat)⁻¹ < 1 := inv_lt_one_of_one_lt₀ hpow
    have : (0 : ℚ) < 1 - ((1 + rate) ^ n.toNat)⁻¹ := by linarith
    exact absurd hdenom (by linarith)
  · -- the serviced update
    refine ⟨_, rfl, le_max_left _ _, ?_⟩
    have hx : (1 : ℚ) < 1 + rate := by linarith
    have hm : (n.toNat : ℕ) ≠ 0 := by
      simp only [not_le] at hn
      omega
    have hpow : (1 : ℚ) < (1 + rate) ^ n.toNat := one_lt_pow₀ hx hm
    have hinvpos : (0 : ℚ) < ((1 + rate) ^ n.toNat)⁻¹ :=
      inv_pos.mpr (by linarith)
    have hinv : ((1 + rate) ^ n.toNat)⁻¹ < 1 := inv_lt_one_of_one_lt₀ hpow
    have hdpos : (0 : ℚ) < 1 - ((1 + rate) ^ n.toNat)⁻¹ := by linarith
    have hdle : (1 : ℚ) - ((1 + rate) ^ n.toNat)⁻¹ ≤ 1 := by linarith
    have hpay : r * rate ≤ pr * rate / (1 - ((1 + rate) ^ n.toNat)⁻¹) := by
      have h1 : r * rate ≤ pr * rate :=
        mul_le_mul_of_nonneg_right hrp hrate.le
      have h2 : pr * rate ≤ pr * rate / (1 - ((1 + rate) ^ n.toNat)⁻¹) := by
        rw [le_div_iff₀ hdpos]
        exact mul_le_of_le_one_right (by positivity) hdle
      linarith
    have hmin : r * rate ≤
        min (pr * rate / (1 - ((1 + rate) ^ n.toNat)⁻¹)) (r + r * rate) :=
      le_min hpay (le_add_of_nonneg_left h0)
    exact max_le h0 (by linarith [hmin])
  · exact ⟨r, rfl, h0, le_rfl⟩

/-- Loop invariant for claim C4: if slot `j` of the working debts holds a
debt with nonnegative principal, positive rate and a finite balance
`r ∈ [0, principal]`, the stored `remaining` snapshots for that slot over
the remaining periods form a non-increasing sequence of nonnegative numbers
below `r`. -/
theorem runFrom_debt (P : LoopParams) (pr rate : ℚ) (n start : ℤ) (j : ℕ)
    (hpr : 0 ≤ pr) (hrate : 0 < rate) :
    ∀ (k t : ℕ) (s : SimState) (r : ℚ),
      s.debts[j]? = some ⟨pr, rate, n, start, some r⟩ →
      0 ≤ r → r ≤ pr →
      ∃ qs : List ℚ,
        (runFrom P t s k).results.map
            (fun rec => (rec.debts.getD j ⟨none, 0⟩).remaining) =
          s.results.map (fun rec => (rec.debts.getD j ⟨none, 0⟩).remaining) ++
            qs.map some ∧
        List.Chain' (fun a b => b ≤ a) (r :: qs) ∧
        ∀ q ∈ qs, 0 ≤ q ∧ q ≤ pr
  | 0, t, s, r, hj, h0, hrp => ⟨[], by simp [runFrom], by simp, by simp⟩
  | k + 1, t, s, r, hj, h0, hrp => by
    obtain ⟨q, hstep, hq0, hqr⟩ :=
      debtStep_remaining t pr rate n start r hpr hrate h0 hrp
    have hdebts2 : (simStep P t s).debts[j]? =
        some ⟨pr, rate, n, start, some q⟩ := by
      show (debtsStep t s.debts).1[j]? = _
      rw [debtsStep_fst, List.getElem?_map, hj]
      simp [hstep]
    obtain ⟨qs, hmap, hchain, hbound⟩ :=
      runFrom_debt P pr rate n start j hpr hrate k (t + 1) (simStep P t s) q
        hdebts2 hq0 (le_trans hqr hrp)
    refine ⟨q :: qs, ?_, ?_, ?_⟩
    · rw [runFrom, hmap]
      have hrec : (simStep P t s).results.map
          (fun rec => (rec.debts.getD j ⟨none, 0⟩).remaining) =
          s.results.map (fun rec => (rec.debts.getD j ⟨none, 0⟩).remaining) ++
            [some q] := by
        simp only [simStep, List.map_append, List.map_cons, List.map_nil]
        congr 1
        simp [List.getD_eq_getElem?_getD, List.getElem?_map, debtsStep_fst,
          hj, hstep]
      rw [hrec]
      simp
    · exact List.chain'_cons.mpr ⟨hqr, hchain⟩
    · intro x hx
      rcases List.mem_cons.mp hx with hx | hx
      · exact hx ▸ ⟨hq0, le_trans hqr hrp⟩
      · exact hbound x hx

/-- Claim C4 (amended): for every debt whose *resolved* principal is
nonnegative and whose *resolved* rate is strictly positive, the sequence of
its stored `remaining` values across the periods, prefixed by its starting
balance (the principal), is non-increasing and consists of nonnegative
numbers.  (The claim's extension to zero-rate debts is false — a serviced
zero-rate debt's annuity payment is `0/0`, and `remaining` becomes NaN, see
the counterexample — and a debt resolved with negative principal keeps its
negative balance forever.) -/
theorem claim_C4_amended (business : Option Snapshot)
    (strategy : Option StrategyParams) (periods : ℕ) (o : Overrides)
    (scenario : String) (stochastic : Bool) (rand : ℕ → ℚ) (j : ℕ) (d : Debt)
    (hd : (resolveDebts business o)[j]? = some d)
    (hpr : 0 ≤ d.principal) (hrate : 0 < d.annualRate) :
    ∃ qs : List ℚ,
      (runAdvancedSimulation business strategy periods o scenario stochastic
          rand).results.map
          (fun rec => (rec.debts.getD j ⟨none, 0⟩).remaining) = qs.map some ∧
      List.Chain' (fun a b => b ≤ a) (d.principal :: qs) ∧
      ∀ q ∈ qs, 0 ≤ q := by
  obtain ⟨pr, rate, n, start, rem⟩ := d
  have hrem : rem = some pr := by
    have h := hd
    unfold resolveDebts at h
    rw [List.getElem?_map] at h
    rcases Option.map_eq_some'.mp h with ⟨din, _, hres⟩
    have h1 := congrArg Debt.principal hres
    have h2 := congrArg Debt.remaining hres
    simp only [resolveDebt] at h1 h2
    rw [← h2, h1]
  subst hrem
  simp only at hpr hrate
  have hj0 : (initState business o).debts[j]? =
      some ⟨pr, rate, n, start, some pr⟩ := hd
  obtain ⟨qs, hmap, hchain, hbound⟩ :=
    runFrom_debt (mkLoopParams strategy o scenario stochastic rand) pr rate n
      start j hpr hrate periods 1 (initState business o) pr hj0 hpr le_rfl
  refine ⟨qs, ?_, hchain, fun q hq => (hbound q hq).1⟩
  simpa [initState] using hmap

/-- Witness for claim C4 on a benign debt
`{principal: 1000, annualRate: 0.08, periodsToRepay: 4, startPeriod: 1}`
over six periods. -/
theorem claim_C4_witness :
    ∃ qs : List ℚ,
      (runAdvancedSimulation none none 6 oC4w "generic" false
          randZero).results.map
          (fun rec => (rec.debts.getD 0 ⟨none, 0⟩).remaining) = qs.map some ∧
      List.Chain' (fun a b => b ≤ a) ((1000 : ℚ) :: qs) ∧
      ∀ q ∈ qs, 0 ≤ q :=
  claim_C4_amended none none 6 oC4w "generic" false randZero 0
    ⟨1000, 2 / 25, 4, 1, some 1000⟩
    (by norm_num [resolveDebts, resolveDebt, oC4w, noOverrides, truthyOr,
      truthyOrZ])
    (by norm_num) (by norm_num)

/-- Claim C4 counterexample: a serviced zero-rate debt
(`{principal: 100, periodsToRepay: 4, startPeriod: 1}`) hits the `0/0`
annuity payment in its first serviced period; its stored `remaining`
becomes NaN (`none`), which is neither `≥ 0` nor comparable, falsifying the
claim's "including debts whose rate is 0".  A debt resolved with negative
principal (second run) is never serviced and keeps its negative balance,
falsifying "every value ≥ 0" independently of the rate. -/
theorem claim_C4_counterexample :
    ((runAdvancedSimulation none none 1 oC4 "generic" false
        randZero).results.map (fun r => r.debts.map (·.remaining)) =
      [[none]] ∧
      (resolveDebts none oC4).map (·.annualRate) = [0]) ∧
    (runAdvancedSimulation none none 1 oC4n "generic" false
        randZero).results.map (fun r => r.debts.map (·.remaining)) =
      [[some (-5)]] := by
  have hgen : scenarioDefaults "generic" = ⟨0, 10 / 100⟩ := rfl
  refine ⟨⟨?_, ?_⟩, ?_⟩ <;>
    norm_num [hgen, runAdvancedSimulation, mkLoopParams, initState, runFrom,
      simStep, resolveGrowthRateBase, resolveCostRateBase, resolveStartRevenue,
      resolveStartCost, resolveDebts, resolveDebt, resolveInitialInvestment,
      resolveCash, noOverrides, oC4, oC4n, truthyOr, truthyOrZ, debtsStep,
      debtStep, investmentAt]

/-! ### Claim C1 -/

/-- Claim C1 counterexample: overrides do *not* supersede resolved records.
First run: a resolved business with `revenue = 777` together with
`overrides.revenue = 5` (and a zero growth rate, so period 1 reproduces the
starting revenue): the loop starts from 777, not 5, so
`results[0].revenue = 777`.  Second run: no business, `overrides.revenue =
0`: the `|| 1000` fallback discards the present-but-falsy override and the
loop starts from 1000, so `results[0].revenue = 1000`, not 0. -/
theorem claim_C1_counterexample :
    ((runAdvancedSimulation (some bC1) none 1 oC1 "generic" false
        randZero).results.map (·.revenue) = [777] ∧
      oC1.revenue = some 5 ∧ bC1.revenue = 777) ∧
    ((runAdvancedSimulation none none 1 oC1z "generic" false
        randZero).results.map (·.revenue) = [1000] ∧
      oC1z.revenue = some 0) := by
  have hgen : scenarioDefaults "generic" = ⟨0, 10 / 100⟩ := rfl
  refine ⟨⟨?_, rfl, rfl⟩, ⟨?_, rfl⟩⟩ <;>
    norm_num [hgen, runAdvancedSimulation, mkLoopParams, initState, runFrom,
      simStep, resolveGrowthRateBase, resolveCostRateBase, resolveStartRevenue,
      resolveStartCost, resolveDebts, resolveInitialInvestment, resolveCash,
      noOverrides, bC1, oC1, oC1z, truthyOr, debtsStep, investmentAt]

/-- Claim C1 (amended): the override levers are only *fallbacks*, not
superseding values.  When a business record is resolved, the loop's
starting revenue/cost are the snapshot's values and `overrides.revenue` /
`overrides.cost` are ignored; when no business is resolved, a present
nonzero override is used, but an override of `0` (falsy under `||`) falls
back to the defaults 1000 / 500.  When a strategy record is resolved, the
growth/cost rate bases are the strategy's values and
`overrides.growthRate` / `overrides.costRate` are ignored; when no strategy
is resolved, a present override is used — there including the value `0`,
because those two fields are read with `??`.  These resolvers are exactly
the ones `runAdvancedSimulation` feeds to its period loop through
`initState` and `mkLoopParams`. -/
theorem claim_C1_amended :
    (∀ (b : Snapshot) (o : Overrides),
      resolveStartRevenue (some b) o = b.revenue ∧
        resolveStartCost (some b) o = b.cost) ∧
    (∀ (o : Overrides) (v : ℚ), o.revenue = some v → v ≠ 0 →
      resolveStartRevenue none o = v) ∧
    (∀ o : Overrides, o.revenue = none ∨ o.revenue = some 0 →
      resolveStartRevenue none o = 1000) ∧
    (∀ (o : Overrides) (v : ℚ), o.cost = some v → v ≠ 0 →
      resolveStartCost none o = v) ∧
    (∀ o : Overrides, o.cost = none ∨ o.cost = some 0 →
      resolveStartCost none o = 500) ∧
    (∀ (s : StrategyParams) (o : Overrides),
      resolveGrowthRateBase (some s) o = s.growthRate ∧
        resolveCostRateBase (some s) o = s.costRate) ∧
    (∀ (o : Overrides) (v : ℚ), o.growthRate = some v →
      resolveGrowthRateBase none o = v) ∧
    (∀ (o : Overrides) (v : ℚ), o.costRate = some v →
      resolveCostRateBase none o = v) := by
  refine ⟨fun b o => ⟨rfl, rfl⟩, ?_, ?_, ?_, ?_, fun s o => ⟨rfl, rfl⟩, ?_, ?_⟩
  · intro o v hv hnz
    simp [resolveStartRevenue, truthyOr, hv, hnz]
  · intro o hv
    rcases hv with hv | hv <;> simp [resolveStartRevenue, truthyOr, hv]
  · intro o v hv hnz
    simp [resolveStartCost, truthyOr, hv, hnz]
  · intro o hv
    rcases hv with hv | hv <;> simp [resolveStartCost, truthyOr, hv]
  · intro o v hv
    simp [resolveGrowthRateBase, hv]
  · intro o v hv
    simp [resolveCostRateBase, hv]

/-- Witness for claim C1 at concrete inputs, covering each resolution
case. -/
theorem claim_C1_witness :
    resolveStartRevenue (some bC1) oC1 = 777 ∧
    resolveStartRevenue none oRev7 = 7 ∧
    resolveStartRevenue none oC1z = 1000 ∧
    resolveStartCost none oCost0 = 500 ∧
    resolveGrowthRateBase none oC1 = 0 :=
  ⟨(claim_C1_amended.1 bC1 oC1).1,
    claim_C1_amended.2.1 oRev7 7 rfl (by norm_num),
    claim_C1_amended.2.2.1 oC1z (Or.inr rfl),
    claim_C1_amended.2.2.2.2.1 oCost0 (Or.inr rfl),
    claim_C1_amended.2.2.2.2.2.2.1 oC1 0 rfl⟩
